import Mathlib

/-!
Shallow embedding of `src/client.py` (class `FTPClient`): the protocol
token tables, the size formatter `get_filesize`, the PUT/GET/LIST command
flows, and the connection lifecycle (`connect`, `disconnect`, the fatal
branch of `log`).  Network and filesystem effects are made explicit:
`NetState` carries the client's `self.connected` flag, the actual TCP
connection state, what has been sent, and two environment switches
(whether `connect` succeeds and whether `send` raises `OSError`); each
command flow is a function from its observable inputs (directory listing,
server response bytes, received chunks) to a `RunResult`.
-/

namespace FTPClient

/-- Python exceptions that the client code can raise. -/
inductive PyExc where
  | OSError
  | SystemExit (msg : String)
  | ValueError
  | NameError
deriving DecidableEq, Repr

/-- How one command flow ends: normal return, an uncaught exception, or
blocking forever in the receive loop (peer stopped sending). -/
inductive Outcome where
  | ok
  | exc (e : PyExc)
  | hang
deriving DecidableEq, Repr

/-- Socket/session state.  `connectedFlag` is the Python-level
`self.connected` attribute; `sockConnected` is the actual TCP state of
`self.cli_socket` (they differ: `put_file` sends before any `connect`).
`sendRaises` is an environment switch: the peer side is broken so any
`send`/`sendall` on the connected socket raises `OSError`.  `connectOk`
models whether `socket.connect` succeeds. -/
structure NetState where
  connectedFlag : Bool
  sockConnected : Bool
  sendRaises : Bool
  sent : List String
  sentData : List (List Nat)
  connectOk : Bool
deriving DecidableEq, Repr

/-- A freshly constructed client: socket created but never connected,
nothing sent, server reachable. -/
def net0 : NetState :=
  { connectedFlag := false, sockConnected := false, sendRaises := false,
    sent := [], sentData := [], connectOk := true }

/-- `self.protocol_errors` (token, description) table from `__init__`. -/
def protocol_errors : List (String × String) :=
  [("FileAlreadyExists", "File already exists in current directory"),
   ("FileNotFound", "File could not be found in current directory"),
   ("FileTooLarge", "File is too large to transfer (over 5GB in size)"),
   ("FileZeroSized", "File is a zero-sized file (does not contain data)"),
   ("FileNameTooLong", "Filename of file is too long (over 255 chars)"),
   ("FileIsDirectory", "File is actually a directory (folder containing files)")]

/-- `self.protocol_messages` (token, description) table from `__init__`. -/
def protocol_messages : List (String × String) :=
  [("FileOkTransfer", "No existing file present, OK to create new file."),
   ("FileSizeReceived", "The filesize of file being transferred has successfully been received.")]

/-- `self.cli_socket.sendall(msg)` (also used for the bare `send` in
`disconnect`): succeeds only on a connected, unbroken socket; otherwise
raises `OSError`. -/
def sendallMsg (net : NetState) (msg : String) : Except PyExc NetState :=
  if net.sockConnected && !net.sendRaises then
    Except.ok { net with sent := net.sent ++ [msg] }
  else
    Except.error PyExc.OSError

/-- `self.cli_socket.sendall(data)` for raw file-content chunks. -/
def sendallData (net : NetState) (data : List Nat) : Except PyExc NetState :=
  if net.sockConnected && !net.sendRaises then
    Except.ok { net with sentData := net.sentData ++ [data] }
  else
    Except.error PyExc.OSError

/-- `disconnect` (client.py lines 130-135): when `self.connected`, clear
the flag, send `b"DISCONNECT"` (which can raise `OSError`), and log
`DIS` (print only).  Returns the state together with the raised
exception, if any (Python state mutations are not rolled back). -/
def disconnect (net : NetState) : NetState × Option PyExc :=
  if net.connectedFlag then
    let net1 := { net with connectedFlag := false }
    if net1.sockConnected && !net1.sendRaises then
      ({ net1 with sent := net1.sent ++ ["DISCONNECT"] }, none)
    else
      (net1, some PyExc.OSError)
  else
    (net, none)

/-- The `ctype == "ERR"` branch of `log` (client.py lines 57-64):
attempt `disconnect()` with `OSError` swallowed by `except OSError:
pass`, then `raise SystemExit("[ERR] %s" % message)`. -/
def log_err (net : NetState) (message : String) : NetState × PyExc :=
  match disconnect net with
  | (net1, some PyExc.OSError) => (net1, PyExc.SystemExit ("[ERR] " ++ message))
  | (net1, some e) => (net1, e)
  | (net1, none) => (net1, PyExc.SystemExit ("[ERR] " ++ message))

/-- `connect` (client.py lines 120-128): on success set `self.connected`
and log `CON` (print only); on `gaierror`/`ConnectionRefusedError` close
the socket and `log("ERR", ...)`, raising `SystemExit`. -/
def connect (net : NetState) : NetState × Option PyExc :=
  if net.connectOk then
    ({ net with sockConnected := true, connectedFlag := true }, none)
  else
    let r := log_err net "An error occurred when connecting to host"
    (r.1, some r.2)

/-- The observable result of one command flow: final socket/session
state, the local file written by GET (`none` = no file created), the
listing displayed by LIST, and how the flow ended. -/
structure RunResult where
  net : NetState
  file : Option (List Nat)
  display : Option String
  outcome : Outcome
deriving DecidableEq, Repr

/-- Python `int(s)` restricted to the nonnegative decimal strings this
protocol uses: digits-only and nonempty parse to a number, anything else
(including the protocol tokens) raises `ValueError`, modelled as `none`. -/
def pyInt (s : String) : Option Nat :=
  if !s.data.isEmpty && s.data.all Char.isDigit then
    some (s.data.foldl (fun n c => 10 * n + (c.toNat - 48)) 0)
  else
    none

/-- The `sizes` suffix table of `get_filesize` (client.py line 71). -/
def sizes : List String := ["B", "KB", "MB", "GB"]

/-- The `while size_bytes > 1024 and i < 5` loop of `get_filesize`
(client.py lines 73-75), with float division modelled exactly on `ℚ`
(all divisions here are by the power of two 1024, which never rounds in
IEEE doubles for the comparisons the loop performs).  The fuel argument
is called with 5, which the guard `i < 5` makes sufficient. -/
def fs_loop : Nat → ℚ → Nat → ℚ × Nat
  | 0, size_bytes, i => (size_bytes, i)
  | fuel + 1, size_bytes, i =>
    if 1024 < size_bytes ∧ i < 5 then
      fs_loop fuel (size_bytes / 1024) (i + 1)
    else
      (size_bytes, i)

/-- `get_filesize` (client.py lines 67-76): run the reduction loop, then
index `sizes[i]`.  The result is the pair (reduced value, suffix) that
`"%0.2f%s"` would format; `none` models the `IndexError` raised when `i`
falls outside the 4-entry `sizes` table. -/
def get_filesize (size_bytes : Nat) : Option (ℚ × String) :=
  let r := fs_loop 5 (size_bytes : ℚ) 0
  (sizes.get? r.2).map (fun s => (r.1, s))

/-- The five local PUT validation failures (client.py lines 140-158). -/
inductive PutError where
  | FileNotFound
  | FileNameTooLong
  | FileIsDirectory
  | FileTooLarge
  | FileZeroSized
deriving DecidableEq, Repr

/-- The token string `sendall`ed for each PUT validation failure. -/
def tokenString : PutError → String
  | PutError.FileNotFound => "FileNotFound"
  | PutError.FileNameTooLong => "FileNameTooLong"
  | PutError.FileIsDirectory => "FileIsDirectory"
  | PutError.FileTooLarge => "FileTooLarge"
  | PutError.FileZeroSized => "FileZeroSized"

/-- Observable inputs of `put_file`: `os.listdir(os.getcwd())`, whether
the path is a directory, `os.path.getsize`, the server's readiness
response (`recv(24)` decoded), and the file content as the successive
nonempty `upload.read(4096)` results. -/
structure PutEnv where
  listing : List String
  isDir : Bool
  size : Nat
  response : String
  chunks : List (List Nat)
deriving DecidableEq, Repr

/-- The `if`/`elif` validation chain of `put_file` (client.py lines
140-158), returning the first failing check, if any, in source order:
not listed in the working directory, name longer than 255 characters,
path is a directory, size over 5368709120 bytes, size zero. -/
def put_validate (env : PutEnv) (filename : String) : Option PutError :=
  if filename ∉ env.listing then some PutError.FileNotFound
  else if 255 < filename.length then some PutError.FileNameTooLong
  else if env.isDir then some PutError.FileIsDirectory
  else if 5368709120 < env.size then some PutError.FileTooLarge
  else if env.size = 0 then some PutError.FileZeroSized
  else none

/-- Modelled from the spec wording of the PUT validation order ("in
order, short-circuiting at the first failure"), for comparison with
`put_validate`: does the given check fail on this input? -/
def check_fails (env : PutEnv) (filename : String) : PutError → Bool
  | PutError.FileNotFound => decide (filename ∉ env.listing)
  | PutError.FileNameTooLong => decide (255 < filename.length)
  | PutError.FileIsDirectory => env.isDir
  | PutError.FileTooLarge => decide (5368709120 < env.size)
  | PutError.FileZeroSized => decide (env.size = 0)

/-- The spec's validation order. -/
def ordered_checks : List PutError :=
  [PutError.FileNotFound, PutError.FileNameTooLong, PutError.FileIsDirectory,
   PutError.FileTooLarge, PutError.FileZeroSized]

/-- The `while data:` upload loop of `put_file` (client.py lines
181-186): per chunk, add its length to `bytes_sent`, set `current_size`
(modelled as the byte count that `get_filesize` would format), print
progress, `sendall` the chunk.  Returns final state, `bytes_sent`,
`current_size` (`none` = never assigned), and a raised exception if a
send failed. -/
def upload_loop : NetState → Nat → Option Nat → List (List Nat) →
    NetState × Nat × Option Nat × Option PyExc
  | net, bytes_sent, cur, [] => (net, bytes_sent, cur, none)
  | net, bytes_sent, _, c :: rest =>
    match sendallData net c with
    | Except.error e => (net, bytes_sent + c.length, some (bytes_sent + c.length), some e)
    | Except.ok net1 => upload_loop net1 (bytes_sent + c.length) (some (bytes_sent + c.length)) rest

/-- `put_file` (client.py lines 138-187).  On a validation failure the
source `sendall`s the token and then calls `log("ERR", ...)`; note that
`connect` is only reached in the success branch, so the validation-path
`sendall` happens on a never-connected socket.  In the success branch:
connect, send `"PUT <filename>"`, read the readiness response; an error
token is fatal; an informational token triggers sending the decimal file
size and streaming the chunks, ending with the `UPL` completion log
(which reads `current_size`, a `NameError` if the loop never ran); any
other response falls off the `if`/`elif` chain and returns silently. -/
def put_file (filename : String) (env : PutEnv) (net : NetState) : RunResult :=
  match put_validate env filename with
  | some err =>
    match sendallMsg net (tokenString err) with
    | Except.error e => ⟨net, none, none, Outcome.exc e⟩
    | Except.ok net1 =>
      let r := log_err net1 (tokenString err ++ ": " ++
        ((protocol_errors.lookup (tokenString err)).getD ""))
      ⟨r.1, none, none, Outcome.exc r.2⟩
  | none =>
    match connect net with
    | (net1, some e) => ⟨net1, none, none, Outcome.exc e⟩
    | (net1, none) =>
      match sendallMsg net1 ("PUT " ++ filename) with
      | Except.error e => ⟨net1, none, none, Outcome.exc e⟩
      | Except.ok net2 =>
        if (protocol_errors.lookup env.response).isSome then
          let r := log_err net2 ("Server response: \"" ++ env.response ++ "\" - " ++
            ((protocol_errors.lookup env.response).getD ""))
          ⟨r.1, none, none, Outcome.exc r.2⟩
        else if (protocol_messages.lookup env.response).isSome then
          match sendallMsg net2 (toString env.size) with
          | Except.error e => ⟨net2, none, none, Outcome.exc e⟩
          | Except.ok net3 =>
            match upload_loop net3 0 none env.chunks with
            | (net4, _, _, some e) => ⟨net4, none, none, Outcome.exc e⟩
            | (net4, _, none, none) => ⟨net4, none, none, Outcome.exc PyExc.NameError⟩
            | (net4, _, some _, none) => ⟨net4, none, none, Outcome.ok⟩
        else
          ⟨net2, none, none, Outcome.ok⟩

/-- Observable inputs of `get_file`: `os.listdir(os.getcwd())`, the
server's first response (`recv(1024)` decoded), and the successive
`recv(4096)` results of the download loop. -/
structure GetEnv where
  listing : List String
  response : String
  chunks : List (List Nat)
deriving DecidableEq, Repr

/-- The `while bytes_collected < file_size:` download loop of `get_file`
(client.py lines 214-219): receive a chunk, add its length to
`bytes_collected`, set `current_size`, write the whole chunk to the
file.  Returns (`bytes_collected`, file content, `current_size`,
completed?); `false` in the last slot means the chunk stream ran out
while still below `file_size`, i.e. the real loop blocks/spins forever. -/
def download_loop : Nat → Nat → List Nat → Option Nat → List (List Nat) →
    Nat × List Nat × Option Nat × Bool
  | file_size, acc, file, cur, [] =>
    if file_size ≤ acc then (acc, file, cur, true) else (acc, file, cur, false)
  | file_size, acc, file, cur, c :: rest =>
    if file_size ≤ acc then (acc, file, cur, true)
    else download_loop file_size (acc + c.length) (file ++ c) (some (acc + c.length)) rest

/-- `get_file` (client.py lines 189-224).  Log `CMD` (print); if the
filename is already listed locally, `log("ERR", ...)` raises
`SystemExit` right there; otherwise connect and send `"GET <filename>"`;
an error-token response is fatal; an informational token is only logged
`OK!` (print) and control continues; `int(response)` then runs
unconditionally (`ValueError` on a non-numeric response); the download
loop writes chunks to the newly opened local file; the final `DWN` log
reads `current_size`, raising `NameError` when the loop never ran. -/
def get_file (filename : String) (env : GetEnv) (net : NetState) : RunResult :=
  if filename ∈ env.listing then
    let r := log_err net ("FileAlreadyExists: " ++
      ((protocol_errors.lookup "FileAlreadyExists").getD "") ++ " (client).")
    ⟨r.1, none, none, Outcome.exc r.2⟩
  else
    match connect net with
    | (net1, some e) => ⟨net1, none, none, Outcome.exc e⟩
    | (net1, none) =>
      match sendallMsg net1 ("GET " ++ filename) with
      | Except.error e => ⟨net1, none, none, Outcome.exc e⟩
      | Except.ok net2 =>
        if (protocol_errors.lookup env.response).isSome then
          let r := log_err net2 ("Server response: \"" ++ env.response ++ "\" - " ++
            ((protocol_errors.lookup env.response).getD ""))
          ⟨r.1, none, none, Outcome.exc r.2⟩
        else
          -- `elif response in self.protocol_messages:` only prints; control
          -- then reaches `file_size = int(response)` in both cases.
          match pyInt env.response with
          | none => ⟨net2, none, none, Outcome.exc PyExc.ValueError⟩
          | some file_size =>
            -- `open(filename, 'wb')` creates/truncates the local file here.
            match download_loop file_size 0 [] none env.chunks with
            | (_, file, _, false) => ⟨net2, some file, none, Outcome.hang⟩
            | (_, file, none, true) => ⟨net2, some file, none, Outcome.exc PyExc.NameError⟩
            | (_, file, some _, true) => ⟨net2, some file, none, Outcome.ok⟩

/-- Observable input of `show_list`: the `recv(16384)` payload, decoded
(`""` models the empty byte string `b""`). -/
structure ListEnv where
  response : String
deriving DecidableEq, Repr

/-- `show_list` (client.py lines 226-237): log `CMD` (print), connect,
send `"LIST"`, receive; a non-empty response is logged/displayed and the
flow returns normally; an empty response triggers `log("ERR", "Server
responded without a file list.")`, raising `SystemExit`. -/
def show_list (env : ListEnv) (net : NetState) : RunResult :=
  match connect net with
  | (net1, some e) => ⟨net1, none, none, Outcome.exc e⟩
  | (net1, none) =>
    match sendallMsg net1 "LIST" with
    | Except.error e => ⟨net1, none, none, Outcome.exc e⟩
    | Except.ok net2 =>
      if env.response ≠ "" then
        ⟨net2, none, some env.response, Outcome.ok⟩
      else
        let r := log_err net2 "Server responded without a file list."
        ⟨r.1, none, none, Outcome.exc r.2⟩

/-- A validated command together with the environment its flow reads. -/
inductive CmdEnv where
  | put (filename : String) (env : PutEnv)
  | get (filename : String) (env : GetEnv)
  | list (env : ListEnv)

/-- `start` (client.py lines 108-117): log `OK!` (print) and dispatch to
the command's flow.  Nothing runs after the flow: the
`self.disconnect()` call on line 117 is commented out in the source. -/
def start (c : CmdEnv) (net : NetState) : RunResult :=
  match c with
  | CmdEnv.put f env => put_file f env net
  | CmdEnv.get f env => get_file f env net
  | CmdEnv.list env => show_list env net

/-- A 256-character filename, used as a concrete over-length input. -/
def longName : String := String.mk (List.replicate 256 'a')

/-! ## Helper lemmas -/

/-- One reduction step of the `get_filesize` loop when the guard holds. -/
theorem fs_loop_step (fuel : Nat) (x : ℚ) (i : Nat) (hx : 1024 < x) (hi : i < 5) :
    fs_loop (fuel + 1) x i = fs_loop fuel (x / 1024) (i + 1) := by
  rw [fs_loop, if_pos ⟨hx, hi⟩]

/-- The download loop exits immediately once the announced size is
reached, whatever chunks remain. -/
theorem download_loop_done (file_size acc : Nat) (file : List Nat) (cur : Option Nat)
    (chunks : List (List Nat)) (h : file_size ≤ acc) :
    download_loop file_size acc file cur chunks = (acc, file, cur, true) := by
  cases chunks <;> simp [download_loop, h]

/-- Invariant of the GET receive loop: as soon as the remaining chunks
carry the accumulated count to the announced size, the loop completes,
consuming exactly the minimal prefix of chunks whose lengths reach the
size, and appending each consumed chunk to the file in full. -/
theorem download_loop_reaches (N : Nat) (chunks : List (List Nat)) :
    ∀ (acc : Nat) (file : List Nat) (cur : Option Nat),
      N ≤ acc + (chunks.map List.length).sum →
      ∃ k, k ≤ chunks.length ∧
        N ≤ acc + ((chunks.take k).map List.length).sum ∧
        (∀ j < k, acc + ((chunks.take j).map List.length).sum < N) ∧
        ∃ cur2, download_loop N acc file cur chunks =
          (acc + ((chunks.take k).map List.length).sum,
           file ++ (chunks.take k).flatten, cur2, true) := by
  induction chunks with
  | nil =>
    intro acc file cur h
    simp only [List.map_nil, List.sum_nil, Nat.add_zero] at h
    refine ⟨0, Nat.le_refl 0, by simpa using h, ?_, cur, ?_⟩
    · intro j hj; omega
    · simp [download_loop, h]
  | cons c rest ih =>
    intro acc file cur h
    by_cases hacc : N ≤ acc
    · refine ⟨0, Nat.zero_le _, by simpa using hacc, ?_, cur, ?_⟩
      · intro j hj; omega
      · simp [download_loop, hacc]
    · have h' : N ≤ (acc + c.length) + (rest.map List.length).sum := by
        simp only [List.map_cons, List.sum_cons] at h; omega
      obtain ⟨k, hk, hreach, hmin, cur2, heq⟩ :=
        ih (acc + c.length) (file ++ c) (some (acc + c.length)) h'
      refine ⟨k + 1, by simpa using Nat.succ_le_succ hk, ?_, ?_, cur2, ?_⟩
      · simpa [List.take_succ_cons, List.map_cons, List.sum_cons, Nat.add_assoc] using hreach
      · intro j hj
        cases j with
        | zero => simpa using Nat.lt_of_not_le hacc
        | succ j' =>
          have := hmin j' (by omega)
          simpa [List.take_succ_cons, List.map_cons, List.sum_cons, Nat.add_assoc] using this
      · simp only [download_loop, if_neg hacc]
        rw [heq]
        simp [List.take_succ_cons, List.map_cons, List.sum_cons, Nat.add_assoc,
          List.flatten, List.append_assoc]

/-! ## Claims -/

/-- C7 counterexample: at exactly `1024 ^ 4` bytes the claim's predicted
out-of-table lookup does not happen — the loop stops after three
divisions (the guard is strict `>`), index 3 is inside the table, and
`get_filesize` succeeds with suffix `GB`. -/
theorem get_filesize_defined_at_pow4 :
    1024 ^ 4 ≤ 1024 ^ 4 ∧ get_filesize (1024 ^ 4) = some (1024, "GB") := by
  refine ⟨Nat.le_refl _, ?_⟩
  unfold get_filesize
  norm_num [fs_loop, sizes]

/-- C7 (amended): `get_filesize` repeatedly divides by 1024 while the
value exceeds 1024 and fewer than 5 divisions have occurred, then looks
up the suffix at the resulting index in the 4-entry table; for every
byte count strictly greater than `1024 ^ 4` the index is 4 or 5, outside
the table, so the lookup fails (`IndexError`, modelled as `none`). -/
theorem get_filesize_fails_above_pow4 (b : Nat) (h : 1024 ^ 4 < b) :
    get_filesize b = none := by
  have hb : ((1024 : ℚ)) ^ 4 < (b : ℚ) := by exact_mod_cast h
  have h0 : (1024 : ℚ) < (b : ℚ) := by nlinarith
  have h1 : (1024 : ℚ) < (b : ℚ) / 1024 := by
    rw [lt_div_iff₀ (by norm_num)]
    nlinarith
  have h2 : (1024 : ℚ) < (b : ℚ) / 1024 / 1024 := by
    rw [lt_div_iff₀ (by norm_num), lt_div_iff₀ (by norm_num)]
    nlinarith
  have h3 : (1024 : ℚ) < (b : ℚ) / 1024 / 1024 / 1024 := by
    rw [lt_div_iff₀ (by norm_num), lt_div_iff₀ (by norm_num), lt_div_iff₀ (by norm_num)]
    nlinarith
  have e1 : fs_loop 5 (b : ℚ) 0 = fs_loop 4 ((b : ℚ) / 1024) 1 :=
    fs_loop_step 4 _ 0 h0 (by norm_num)
  have e2 : fs_loop 4 ((b : ℚ) / 1024) 1 = fs_loop 3 ((b : ℚ) / 1024 / 1024) 2 :=
    fs_loop_step 3 _ 1 h1 (by norm_num)
  have e3 : fs_loop 3 ((b : ℚ) / 1024 / 1024) 2 =
      fs_loop 2 ((b : ℚ) / 1024 / 1024 / 1024) 3 :=
    fs_loop_step 2 _ 2 h2 (by norm_num)
  have e4 : fs_loop 2 ((b : ℚ) / 1024 / 1024 / 1024) 3 =
      fs_loop 1 ((b : ℚ) / 1024 / 1024 / 1024 / 1024) 4 :=
    fs_loop_step 1 _ 3 h3 (by norm_num)
  have hi : (fs_loop 1 ((b : ℚ) / 1024 / 1024 / 1024 / 1024) 4).2 = 4 ∨
      (fs_loop 1 ((b : ℚ) / 1024 / 1024 / 1024 / 1024) 4).2 = 5 := by
    rw [fs_loop]
    split
    · right; rfl
    · left; rfl
  simp only [get_filesize, e1, e2, e3, e4]
  rcases hi with hi | hi <;> rw [hi] <;> rfl

/-- C7 witness: the amended bound applied at the concrete byte count
`1024 ^ 4 + 1`, where the lookup indeed fails. -/
theorem get_filesize_fails_above_pow4_witness :
    1024 ^ 4 < 1024 ^ 4 + 1 ∧ get_filesize (1024 ^ 4 + 1) = none :=
  ⟨by norm_num, get_filesize_fails_above_pow4 (1024 ^ 4 + 1) (by norm_num)⟩

/-- C2: `put_file`'s local validation chain returns exactly the first
failing check of the ordered list [file not listed (`FileNotFound`),
name longer than 255 (`FileNameTooLong`), path is a directory
(`FileIsDirectory`), size over 5368709120 (`FileTooLarge`), size zero
(`FileZeroSized`)] — in particular at most one error per input. -/
theorem put_validation_first_failing_check (env : PutEnv) (filename : String) :
    put_validate env filename = ordered_checks.find? (check_fails env filename) := by
  by_cases h1 : filename ∈ env.listing <;>
  by_cases h2 : 255 < filename.length <;>
  cases h3 : env.isDir <;>
  by_cases h4 : 5368709120 < env.size <;>
  by_cases h5 : env.size = 0 <;>
  simp [put_validate, ordered_checks, check_fails, List.find?, h1, h2, h3, h4, h5]

/-- C1: for a GET transfer with announced total size `N > 0` whose chunk
stream carries at least `N` bytes, the receive loop terminates exactly at
the minimal prefix of chunks whose accumulated length first reaches or
exceeds `N`, and the local file holds every consumed chunk in full —
including the final chunk when it overshoots `N` (no truncation). -/
theorem get_receive_loop_stops_at_announced_size (N : Nat) (chunks : List (List Nat))
    (_hN : 0 < N) (htot : N ≤ (chunks.map List.length).sum) :
    ∃ k, k ≤ chunks.length ∧
      N ≤ ((chunks.take k).map List.length).sum ∧
      (∀ j < k, ((chunks.take j).map List.length).sum < N) ∧
      ∃ cur2, download_loop N 0 [] none chunks =
        (((chunks.take k).map List.length).sum, (chunks.take k).flatten, cur2, true) := by
  obtain ⟨k, hk, hreach, hmin, cur2, heq⟩ :=
    download_loop_reaches N chunks 0 [] none (by simpa using htot)
  refine ⟨k, hk, by simpa using hreach, ?_, cur2, by simpa using heq⟩
  intro j hj
  simpa using hmin j hj

/-- C1 witness: announced size 5 with chunks of lengths 3 and 3; the
loop consumes both chunks and writes all 6 bytes. -/
theorem get_receive_loop_stops_at_announced_size_witness :
    0 < 5 ∧ 5 ≤ (([[1, 2, 3], [4, 5, 6]] : List (List Nat)).map List.length).sum ∧
    (∃ k, k ≤ ([[1, 2, 3], [4, 5, 6]] : List (List Nat)).length ∧
      5 ≤ ((([[1, 2, 3], [4, 5, 6]] : List (List Nat)).take k).map List.length).sum ∧
      (∀ j < k, ((([[1, 2, 3], [4, 5, 6]] : List (List Nat)).take j).map List.length).sum < 5) ∧
      ∃ cur2, download_loop 5 0 [] none [[1, 2, 3], [4, 5, 6]] =
        (((([[1, 2, 3], [4, 5, 6]] : List (List Nat)).take k).map List.length).sum,
         (([[1, 2, 3], [4, 5, 6]] : List (List Nat)).take k).flatten, cur2, true)) :=
  ⟨by norm_num, by decide,
    get_receive_loop_stops_at_announced_size 5 [[1, 2, 3], [4, 5, 6]] (by norm_num) (by decide)⟩

/-- C3 (code bug): on a PUT local-validation failure the source calls
`sendall(token)` on a socket that was never connected — `connect()` is
reached only in the success branch — so the send raises `OSError`, the
token never reaches the peer (`sent` stays empty), and the fatal
`log("ERR", ...)` is never executed.  Evaluated at the failing input
`PUT "missing.txt"` with the file absent from the working directory. -/
theorem put_validation_failure_token_never_sent :
    put_file "missing.txt" ⟨[], false, 10, "", []⟩ net0 =
      ⟨net0, none, none, Outcome.exc PyExc.OSError⟩ := by
  rfl

/-- C4 (code bug): after the error-token check, `file_size =
int(response)` runs unconditionally — the `elif response in
self.protocol_messages` branch only logs — so an informational response
is also fed to integer parsing and raises `ValueError`.  Evaluated at
the failing input: a GET whose server response is `"FileOkTransfer"`. -/
theorem get_info_response_is_parsed_as_int :
    get_file "file.txt" ⟨[], "FileOkTransfer", []⟩ net0 =
      ⟨{ connectedFlag := true, sockConnected := true, sendRaises := false,
         sent := ["GET file.txt"], sentData := [], connectOk := true },
       none, none, Outcome.exc PyExc.ValueError⟩ := by
  rfl

/-- C5 counterexample: with `"a.txt"` already in the local directory,
`get_file` raises `SystemExit` inside `log("ERR", ...)` — nothing is
ever sent and the client never connects, contradicting the claim that
the flow still proceeds to connect and send the GET request. -/
theorem get_existing_file_aborts_before_connect_cex :
    (get_file "a.txt" ⟨["a.txt"], "0", []⟩ net0).net.sent = [] ∧
    (get_file "a.txt" ⟨["a.txt"], "0", []⟩ net0).net.connectedFlag = false ∧
    (get_file "a.txt" ⟨["a.txt"], "0", []⟩ net0).outcome =
      Outcome.exc (PyExc.SystemExit
        "[ERR] FileAlreadyExists: File already exists in current directory (client).") := by
  refine ⟨rfl, rfl, rfl⟩

/-- C5 (amended): if a file with the requested name already exists
locally, GET logs `FileAlreadyExists` as fatal and aborts right there
via `SystemExit` (`log("ERR", ...)` raises), never connecting to the
server and never sending the GET request. -/
theorem get_existing_file_aborts_before_connect (filename : String) (env : GetEnv)
    (net : NetState) (h1 : filename ∈ env.listing) (h2 : net.connectedFlag = false) :
    get_file filename env net =
      ⟨net, none, none, Outcome.exc (PyExc.SystemExit
        "[ERR] FileAlreadyExists: File already exists in current directory (client).")⟩ := by
  simp [get_file, h1, log_err, disconnect, h2, protocol_errors]

/-- C5 witness: the amended statement applied at the concrete run of
`GET "b.txt"` with `b.txt` in the local listing. -/
theorem get_existing_file_aborts_before_connect_witness :
    "b.txt" ∈ (["b.txt", "c.txt"] : List String) ∧ net0.connectedFlag = false ∧
    get_file "b.txt" ⟨["b.txt", "c.txt"], "17", [[1]]⟩ net0 =
      ⟨net0, none, none, Outcome.exc (PyExc.SystemExit
        "[ERR] FileAlreadyExists: File already exists in current directory (client).")⟩ :=
  ⟨by decide, rfl,
    get_existing_file_aborts_before_connect "b.txt" ⟨["b.txt", "c.txt"], "17", [[1]]⟩ net0
      (by decide) rfl⟩

/-- For base-10 digits, `Nat.digitChar` yields `'0'`–`'9'` — never the
uppercase letter `D`. -/
theorem digitChar_ne_D (m : Nat) (hm : m < 10) : Nat.digitChar m ≠ 'D' := by
  interval_cases m <;> decide

/-- No character of a base-10 digit expansion is the letter `D`
(provided the accumulator has none). -/
theorem toDigitsCore_ne_D (fuel : Nat) :
    ∀ (n : Nat) (ds : List Char), (∀ ch ∈ ds, ch ≠ 'D') →
      ∀ ch ∈ Nat.toDigitsCore 10 fuel n ds, ch ≠ 'D' := by
  induction fuel with
  | zero =>
    intro n ds h
    simpa [Nat.toDigitsCore] using h
  | succ fuel ih =>
    intro n ds h ch hch
    have hcons : ∀ c0 ∈ (n % 10).digitChar :: ds, c0 ≠ 'D' := by
      intro c0 hc0
      rcases List.mem_cons.mp hc0 with hc0 | hc0
      · exact hc0 ▸ digitChar_ne_D (n % 10) (Nat.mod_lt _ (by norm_num))
      · exact h c0 hc0
    simp only [Nat.toDigitsCore] at hch
    by_cases hz : n / 10 = 0
    · rw [if_pos hz] at hch
      exact hcons ch hch
    · rw [if_neg hz] at hch
      exact ih (n / 10) ((n % 10).digitChar :: ds) hcons ch hch

/-- The decimal rendering of a natural number (the size string the PUT
flow sends) is never the string `"DISCONNECT"`. -/
theorem nat_toString_ne_disconnect (n : Nat) : toString n ≠ "DISCONNECT" := by
  intro h
  have hdata : Nat.toDigits 10 n = "DISCONNECT".data := congrArg String.data h
  have hmem : 'D' ∈ Nat.toDigitsCore 10 (n + 1) n [] := by
    rw [show Nat.toDigitsCore 10 (n + 1) n [] = Nat.toDigits 10 n from rfl, hdata]
    decide
  exact toDigitsCore_ne_D (n + 1) n [] (by simp) 'D' hmem rfl

/-- A PUT request line never collides with the disconnect token. -/
theorem put_request_ne_disconnect (f : String) : "PUT " ++ f ≠ "DISCONNECT" := by
  intro h
  have hd : (some 'P' : Option Char) = some 'D' :=
    congrArg (fun s => s.data.head?) h
  exact absurd hd (by decide)

/-- A GET request line never collides with the disconnect token. -/
theorem get_request_ne_disconnect (f : String) : "GET " ++ f ≠ "DISCONNECT" := by
  intro h
  have hd : (some 'G' : Option Char) = some 'D' :=
    congrArg (fun s => s.data.head?) h
  exact absurd hd (by decide)

/-- The upload loop only sends raw data chunks: the list of text
messages sent, the connected flag, and the socket state are unchanged. -/
theorem upload_loop_preserves_sent (chunks : List (List Nat)) :
    ∀ (net : NetState) (b : Nat) (cur : Option Nat),
      (upload_loop net b cur chunks).1.sent = net.sent ∧
      (upload_loop net b cur chunks).1.connectedFlag = net.connectedFlag ∧
      (upload_loop net b cur chunks).1.sockConnected = net.sockConnected := by
  induction chunks with
  | nil =>
    intro net b cur
    simp [upload_loop]
  | cons c rest ih =>
    intro net b cur
    simp only [upload_loop, sendallData]
    by_cases hs : net.sockConnected && !net.sendRaises
    · rw [if_pos hs]
      simpa using ih { net with sentData := net.sentData ++ [c] } (b + c.length)
        (some (b + c.length))
    · rw [if_neg hs]
      exact ⟨rfl, rfl, rfl⟩

/-- A LIST flow from a fresh client that returns normally has sent
exactly the request line `"LIST"` and left the connection open. -/
theorem show_list_clean_run (env : ListEnv)
    (hok : (show_list env net0).outcome = Outcome.ok) :
    (show_list env net0).net.sent = ["LIST"] ∧
    (show_list env net0).net.connectedFlag = true ∧
    (show_list env net0).net.sockConnected = true := by
  by_cases hr : env.response = ""
  · exfalso
    rw [show env = ⟨env.response⟩ from rfl, hr] at hok
    exact absurd hok (by decide)
  · refine ⟨?_, ?_, ?_⟩ <;> simp [show_list, connect, net0, sendallMsg, hr]

/-- A GET flow from a fresh client that returns normally has sent
exactly the request line `"GET <filename>"` and left the connection
open. -/
theorem get_file_clean_run (f : String) (env : GetEnv)
    (hok : (get_file f env net0).outcome = Outcome.ok) :
    (get_file f env net0).net.sent = ["GET " ++ f] ∧
    (get_file f env net0).net.connectedFlag = true ∧
    (get_file f env net0).net.sockConnected = true := by
  by_cases hl : f ∈ env.listing
  · exfalso
    simp [get_file, hl, log_err, disconnect, net0] at hok
  · by_cases he : (protocol_errors.lookup env.response).isSome
    · exfalso
      simp [get_file, hl, he, connect, net0, sendallMsg, log_err, disconnect] at hok
    · rcases hp : pyInt env.response with _ | n
      · exfalso
        simp [get_file, hl, he, hp, connect, net0, sendallMsg] at hok
      · rcases hd : download_loop n 0 [] none env.chunks with ⟨acc, file, cur, done⟩
        cases done
        · exfalso
          simp [get_file, hl, he, hp, hd, connect, net0, sendallMsg] at hok
        · cases cur
          · exfalso
            simp [get_file, hl, he, hp, hd, connect, net0, sendallMsg] at hok
          · refine ⟨?_, ?_, ?_⟩ <;>
              simp [get_file, hl, he, hp, hd, connect, net0, sendallMsg]

/-- A PUT flow from a fresh client that returns normally has sent
exactly the request line `"PUT <filename>"`, possibly followed by the
decimal size string, and left the connection open. -/
theorem put_file_clean_run (f : String) (env : PutEnv)
    (hok : (put_file f env net0).outcome = Outcome.ok) :
    ((put_file f env net0).net.sent = ["PUT " ++ f] ∨
     (put_file f env net0).net.sent = ["PUT " ++ f, toString env.size]) ∧
    (put_file f env net0).net.connectedFlag = true ∧
    (put_file f env net0).net.sockConnected = true := by
  rcases hv : put_validate env f with _ | err
  · by_cases he : (protocol_errors.lookup env.response).isSome
    · exfalso
      simp [put_file, hv, he, connect, net0, sendallMsg, log_err, disconnect] at hok
    · by_cases hm : (protocol_messages.lookup env.response).isSome
      · rcases hu : (upload_loop
            { connectedFlag := true, sockConnected := true, sendRaises := false,
              sent := ["PUT " ++ f, toString env.size], sentData := [], connectOk := true }
            0 none env.chunks) with ⟨net4, b, cur, exc⟩
        have hpres := upload_loop_preserves_sent env.chunks
          { connectedFlag := true, sockConnected := true, sendRaises := false,
            sent := ["PUT " ++ f, toString env.size], sentData := [], connectOk := true }
          0 none
        rw [hu] at hpres
        rcases exc with _ | e
        · rcases cur with _ | csz
          · exfalso
            simp [put_file, hv, he, hm, connect, net0, sendallMsg, hu] at hok
          · refine ⟨Or.inr ?_, ?_, ?_⟩
            · simp [put_file, hv, he, hm, connect, net0, sendallMsg, hu]
              simpa using hpres.1
            · simp [put_file, hv, he, hm, connect, net0, sendallMsg, hu]
              simpa using hpres.2.1
            · simp [put_file, hv, he, hm, connect, net0, sendallMsg, hu]
              simpa using hpres.2.2
        · exfalso
          simp [put_file, hv, he, hm, connect, net0, sendallMsg, hu] at hok
      · refine ⟨Or.inl ?_, ?_, ?_⟩ <;>
          simp [put_file, hv, he, hm, connect, net0, sendallMsg]
  · exfalso
    simp [put_file, hv, sendallMsg, net0] at hok

/-- C6 counterexample: a GET command that completes cleanly — the very
branch of `start` that the commented-out `self.disconnect()` call (line
117) follows — leaves the connection open and never sends
`"DISCONNECT"`. -/
theorem clean_completion_sends_no_disconnect_cex :
    (start (CmdEnv.get "f.txt" ⟨[], "2", [[7, 8]]⟩) net0).outcome = Outcome.ok ∧
    (start (CmdEnv.get "f.txt" ⟨[], "2", [[7, 8]]⟩) net0).net.connectedFlag = true ∧
    "DISCONNECT" ∉ (start (CmdEnv.get "f.txt" ⟨[], "2", [[7, 8]]⟩) net0).net.sent := by
  refine ⟨rfl, rfl, by decide⟩

/-- C6 (amended): on clean completion of any command (PUT, GET or LIST)
no `DISCONNECT` notification is sent — the teardown call in `start` is
commented out — and the connection is simply left open (both the
client's connected flag and the TCP socket); a `DISCONNECT` is attempted
only by the error-logging path while the connected flag is set, and an
`OSError`-class failure during that notification is swallowed — the
client still terminates with the `SystemExit` error, not the
`OSError`. -/
theorem disconnect_only_on_error_path_oserror_swallowed (c : CmdEnv) (net : NetState)
    (msg : String) (hok : (start c net0).outcome = Outcome.ok)
    (h2 : net.connectedFlag = true) (h3 : net.sendRaises = true) :
    "DISCONNECT" ∉ (start c net0).net.sent ∧
    (start c net0).net.connectedFlag = true ∧
    (start c net0).net.sockConnected = true ∧
    log_err net msg =
      ({ net with connectedFlag := false }, PyExc.SystemExit ("[ERR] " ++ msg)) := by
  refine ⟨?_, ?_, ?_, ?_⟩
  · cases c with
    | put f env =>
      simp only [start] at hok ⊢
      obtain ⟨hsent, -, -⟩ := put_file_clean_run f env hok
      intro hmem
      rcases hsent with hsent | hsent
      · rw [hsent] at hmem
        simp only [List.mem_singleton] at hmem
        exact put_request_ne_disconnect f hmem.symm
      · rw [hsent] at hmem
        simp only [List.mem_cons, List.mem_singleton, List.not_mem_nil, or_false] at hmem
        rcases hmem with hmem | hmem
        · exact put_request_ne_disconnect f hmem.symm
        · exact nat_toString_ne_disconnect env.size hmem.symm
    | get f env =>
      simp only [start] at hok ⊢
      obtain ⟨hsent, -, -⟩ := get_file_clean_run f env hok
      intro hmem
      rw [hsent] at hmem
      simp only [List.mem_singleton] at hmem
      exact get_request_ne_disconnect f hmem.symm
    | list env =>
      simp only [start] at hok ⊢
      obtain ⟨hsent, -, -⟩ := show_list_clean_run env hok
      intro hmem
      rw [hsent] at hmem
      exact absurd hmem (by decide)
  · cases c with
    | put f env =>
      simp only [start] at hok ⊢
      exact (put_file_clean_run f env hok).2.1
    | get f env =>
      simp only [start] at hok ⊢
      exact (get_file_clean_run f env hok).2.1
    | list env =>
      simp only [start] at hok ⊢
      exact (show_list_clean_run env hok).2.1
  · cases c with
    | put f env =>
      simp only [start] at hok ⊢
      exact (put_file_clean_run f env hok).2.2
    | get f env =>
      simp only [start] at hok ⊢
      exact (get_file_clean_run f env hok).2.2
    | list env =>
      simp only [start] at hok ⊢
      exact (show_list_clean_run env hok).2.2
  · simp [log_err, disconnect, h2, h3]

/-- C6 witness: the amended statement at a concrete clean run and a
concrete error-path state whose `DISCONNECT` send raises `OSError`. -/
theorem disconnect_only_on_error_path_oserror_swallowed_witness :
    (start (CmdEnv.list ⟨"x"⟩) net0).outcome = Outcome.ok ∧
    (⟨true, true, true, [], [], true⟩ : NetState).connectedFlag = true ∧
    (⟨true, true, true, [], [], true⟩ : NetState).sendRaises = true ∧
    ("DISCONNECT" ∉ (start (CmdEnv.list ⟨"x"⟩) net0).net.sent ∧
     (start (CmdEnv.list ⟨"x"⟩) net0).net.connectedFlag = true ∧
     (start (CmdEnv.list ⟨"x"⟩) net0).net.sockConnected = true ∧
     log_err ⟨true, true, true, [], [], true⟩ "m" =
       ({ connectedFlag := false, sockConnected := true, sendRaises := true,
          sent := [], sentData := [], connectOk := true },
        PyExc.SystemExit ("[ERR] " ++ "m"))) :=
  ⟨rfl, rfl, rfl,
    disconnect_only_on_error_path_oserror_swallowed (CmdEnv.list ⟨"x"⟩)
      ⟨true, true, true, [], [], true⟩ "m" rfl rfl rfl⟩

set_option maxRecDepth 8192 in
/-- C8 counterexample: a 256-character filename that is not in the
working directory fails the `FileNotFound` check first — the validation
chain emits `FileNotFound`, not `FileNameTooLong`. -/
theorem put_long_filename_not_listed_cex :
    255 < longName.length ∧
    put_validate ⟨[], false, 10, "", []⟩ longName = some PutError.FileNotFound ∧
    put_validate ⟨[], false, 10, "", []⟩ longName ≠ some PutError.FileNameTooLong := by
  refine ⟨by decide, rfl, by decide⟩

/-- C8 (amended): for every filename longer than 255 characters that is
present in the working-directory listing, PUT validation selects exactly
the `FileNameTooLong` error; run on a client that has not yet connected
(as in every actual run, since validation precedes `connect`), the flow
attempts to send only that token, never reaches any size negotiation,
and does not complete normally. -/
theorem put_long_filename_listed_selects_nametoolong (env : PutEnv) (filename : String)
    (net : NetState) (h1 : 255 < filename.length) (h2 : filename ∈ env.listing)
    (h3 : net.connectedFlag = false) :
    put_validate env filename = some PutError.FileNameTooLong ∧
    (∀ m ∈ (put_file filename env net).net.sent, m ∈ net.sent ∨ m = "FileNameTooLong") ∧
    (put_file filename env net).outcome ≠ Outcome.ok := by
  have hv : put_validate env filename = some PutError.FileNameTooLong := by
    simp [put_validate, h1, h2]
  refine ⟨hv, ?_, ?_⟩
  · intro m hm
    simp only [put_file, hv, tokenString, sendallMsg] at hm
    by_cases hs : net.sockConnected && !net.sendRaises
    · simp only [if_pos hs, log_err, disconnect, h3] at hm
      rcases List.mem_append.mp hm with h | h
      · exact Or.inl h
      · exact Or.inr (List.mem_singleton.mp h)
    · simp only [if_neg hs] at hm
      exact Or.inl hm
  · simp only [put_file, hv, tokenString, sendallMsg]
    by_cases hs : net.sockConnected && !net.sendRaises
    · rw [if_pos hs]
      simp [log_err, disconnect, h3]
    · rw [if_neg hs]
      simp

set_option maxRecDepth 8192 in
/-- C8 witness: the amended statement at the concrete 256-character
filename listed in the working directory, on a fresh client. -/
theorem put_long_filename_listed_selects_nametoolong_witness :
    255 < longName.length ∧ longName ∈ [longName] ∧ net0.connectedFlag = false ∧
    (put_validate ⟨[longName], false, 10, "", []⟩ longName = some PutError.FileNameTooLong ∧
     (∀ m ∈ (put_file longName ⟨[longName], false, 10, "", []⟩ net0).net.sent,
        m ∈ net0.sent ∨ m = "FileNameTooLong") ∧
     (put_file longName ⟨[longName], false, 10, "", []⟩ net0).outcome ≠ Outcome.ok) :=
  ⟨by decide, List.mem_singleton.mpr rfl, rfl,
    put_long_filename_listed_selects_nametoolong ⟨[longName], false, 10, "", []⟩ longName net0
      (by decide) (List.mem_singleton.mpr rfl) rfl⟩

/-- C9: the LIST flow displays a non-empty response (up to the 16384
bytes `recv` can return) and returns normally; an empty response is
fatal with exactly the logged message "Server responded without a file
list." (raised as `SystemExit` with the `[ERR]` category tag). -/
theorem list_response_classification (env : ListEnv)
    (hlen : env.response.length ≤ 16384) :
    (env.response ≠ "" →
      (show_list env net0).outcome = Outcome.ok ∧
      (show_list env net0).display = some env.response) ∧
    (env.response = "" →
      (show_list env net0).outcome =
        Outcome.exc (PyExc.SystemExit "[ERR] Server responded without a file list.")) := by
  constructor
  · intro h
    constructor <;> simp [show_list, connect, net0, sendallMsg, h]
  · intro h
    obtain ⟨r⟩ := env
    simp only at h
    subst h
    rfl

/-- C9 witness: the classification applied to a concrete non-empty
response and to the concrete empty response. -/
theorem list_response_classification_witness :
    (("files" : String).length ≤ 16384 ∧
      (show_list ⟨"files"⟩ net0).outcome = Outcome.ok ∧
      (show_list ⟨"files"⟩ net0).display = some "files") ∧
    (("" : String).length ≤ 16384 ∧
      (show_list ⟨""⟩ net0).outcome =
        Outcome.exc (PyExc.SystemExit "[ERR] Server responded without a file list.")) :=
  ⟨⟨by decide, (list_response_classification ⟨"files"⟩ (by decide)).1 (by decide)⟩,
   ⟨by decide, (list_response_classification ⟨""⟩ (by decide)).2 rfl⟩⟩

/-- C10: when the GET response parses as the decimal integer 0, the
client creates the local file, the receive loop body never runs
(`bytes_collected < file_size` is false at once), and the completion log
then reads the never-assigned `current_size`, so the flow ends with a
`NameError` leaving an empty file on disk. -/
theorem get_zero_announced_size_nameerror (filename : String) (env : GetEnv)
    (h1 : filename ∉ env.listing) (h2 : env.response = "0") :
    get_file filename env net0 =
      ⟨{ connectedFlag := true, sockConnected := true, sendRaises := false,
         sent := ["GET " ++ filename], sentData := [], connectOk := true },
       some [], none, Outcome.exc PyExc.NameError⟩ := by
  have hp : pyInt "0" = some 0 := rfl
  have he : (protocol_errors.lookup "0").isSome = false := rfl
  simp [get_file, h1, h2, connect, net0, sendallMsg, he, hp,
    download_loop_done 0 0 [] none env.chunks (Nat.le_refl 0)]

/-- C10 witness: the zero-size behavior at a concrete GET run whose
server would even have had two bytes to send. -/
theorem get_zero_announced_size_nameerror_witness :
    "f.txt" ∉ (([] : List String)) ∧ ("0" : String) = "0" ∧
    get_file "f.txt" ⟨[], "0", [[1, 2]]⟩ net0 =
      ⟨{ connectedFlag := true, sockConnected := true, sendRaises := false,
         sent := ["GET " ++ "f.txt"], sentData := [], connectOk := true },
       some [], none, Outcome.exc PyExc.NameError⟩ :=
  ⟨by decide, rfl,
    get_zero_announced_size_nameerror "f.txt" ⟨[], "0", [[1, 2]]⟩ (by decide) rfl⟩

end FTPClient
